import Mathlib

/-!
Verification of the Pod Metrics Aggregator fragment
(`x-pack` infra pod metrics table hook, `src/unnamed/part_002`).

Numbers held in metric rows are embedded as rationals (`ℚ`): the source
manipulates them only by sums, division by a length, multiplication by 100,
subtraction and `Math.floor`, and every value of interest here is exact.
`Date.now()` is embedded as an explicit `now` parameter threaded to the
transform, since it is an input read from the environment.
-/

namespace PodMetrics

/-- The three pod metric fields the query config of `part_002` requests:
`kubernetes.pod.start_time`, `kubernetes.pod.cpu.usage.limit.pct`,
`kubernetes.pod.memory.usage.bytes`. -/
inductive PodMetricsField where
  | startTime
  | cpuUsageLimitPct
  | memoryUsageBytes
deriving DecidableEq

/-- Aggregation kind used in the per-field metric spec of `part_002`. -/
inductive MetricAggregation where
  | max
  | avg
deriving DecidableEq

/-- One entry of the `metricsMap` of `podMetricsQueryConfig` in `part_002`. -/
structure MetricConfig where
  aggregation : MetricAggregation
  field : String
deriving DecidableEq

/-- The `metricsMap` of `podMetricsQueryConfig` from `part_002`. -/
def podMetricsQueryConfigMetricsMap : PodMetricsField → MetricConfig
  | PodMetricsField.startTime =>
      { aggregation := MetricAggregation.max, field := "kubernetes.pod.start_time" }
  | PodMetricsField.cpuUsageLimitPct =>
      { aggregation := MetricAggregation.avg, field := "kubernetes.pod.cpu.usage.limit.pct" }
  | PodMetricsField.memoryUsageBytes =>
      { aggregation := MetricAggregation.avg, field := "kubernetes.pod.memory.usage.bytes" }

/-- Modelled from the spec: `MetricsExplorerRow` is declared outside `src/`
(only imported by `part_002`). The spec describes it as "a timestamped bucket
holding zero or more named metric values (value may be absent/null if not
reported in that bucket)", so a row carries a timestamp and, per metric field,
an optional value (`none` covers both absent and null). -/
structure MetricsExplorerRow where
  timestamp : ℚ
  metrics : PodMetricsField → Option ℚ

/-- Modelled from the spec: `MetricsExplorerSeries` is declared outside `src/`.
Per the spec it "identifies one entity (composite key ...) and holds an ordered
sequence of time-bucketed rows"; the external interface returns
`{keys: string[], rows: MetricsRow[]}` where `keys` may be absent
(`series.keys ?? []` in `part_002`). The upstream type also carries `id` and
`columns` bookkeeping fields, which the transform never reads. -/
structure MetricsExplorerSeries where
  id : String
  keys : Option (List String)
  columns : List String
  rows : List MetricsExplorerRow

/-- `PodNodeMetricsRow` from `part_002`. The TS declares `id`/`name : string`,
but at runtime they are `undefined` when `series.keys` is missing or short, so
they are embedded as `Option String`. `averageMemoryUsageMegabytes` is an
integer value produced by `Math.floor` but kept a JS number, hence `Option ℚ`. -/
structure PodNodeMetricsRow where
  id : Option String
  name : Option String
  uptime : Option ℚ
  averageCpuUsagePercent : Option ℚ
  averageMemoryUsageMegabytes : Option ℚ
deriving DecidableEq

/-- Modelled from the spec: `makeUnpackMetric`/`unpackMetric` live in the shared
module outside `src/`. It resolves a metric field to its column in the row and
yields the value there, null (here `none`) when the bucket does not report it. -/
def unpackMetric (row : MetricsExplorerRow) (field : PodMetricsField) : Option ℚ :=
  row.metrics field

/-- Modelled from the spec: `averageOfValues` lives in the shared module outside
`src/`; the spec calls it the "arithmetic mean of collected ... values". -/
def averageOfValues (values : List ℚ) : ℚ :=
  values.sum / values.length

/-- Modelled from the spec: `scaleUpPercentage` lives in the shared module
outside `src/`; the spec says values are "scaled from fraction to percentage",
i.e. multiplied by 100. -/
def scaleUpPercentage (value : ℚ) : ℚ :=
  value * 100

/-- Result shape of `unpackMetrics` in `part_002`. -/
structure UnpackedMetrics where
  startTime : Option ℚ
  averageCpuUsagePercent : Option ℚ
  averageMemoryUsageMegabytes : Option ℚ

/-- `unpackMetrics` from `part_002`: unpack the three pod metrics of one row. -/
def unpackMetrics (row : MetricsExplorerRow) : UnpackedMetrics :=
  { startTime := unpackMetric row PodMetricsField.startTime,
    averageCpuUsagePercent := unpackMetric row PodMetricsField.cpuUsageLimitPct,
    averageMemoryUsageMegabytes := unpackMetric row PodMetricsField.memoryUsageBytes }

/-- Result shape of `collectMetricValues` in `part_002`. -/
structure CollectedMetricValues where
  startTimeValues : List ℚ
  averageCpuUsagePercentValues : List ℚ
  averageMemoryUsageMegabytesValues : List ℚ

/-- `collectMetricValues` from `part_002`: walk the rows in order and push each
non-null unpacked value onto the per-metric list. The forEach/push loop over
each metric is exactly an order-preserving `filterMap`. -/
def collectMetricValues (rows : List MetricsExplorerRow) : CollectedMetricValues :=
  { startTimeValues := rows.filterMap (fun row => (unpackMetrics row).startTime),
    averageCpuUsagePercentValues :=
      rows.filterMap (fun row => (unpackMetrics row).averageCpuUsagePercent),
    averageMemoryUsageMegabytesValues :=
      rows.filterMap (fun row => (unpackMetrics row).averageMemoryUsageMegabytes) }

/-- Result shape of `calculateMetricAverages` in `part_002`. -/
structure MetricAverages where
  uptime : Option ℚ
  averageCpuUsagePercent : Option ℚ
  averageMemoryUsageMegabytes : Option ℚ
deriving DecidableEq

/-- `bytesPerMegabyte` local constant of `calculateMetricAverages`. -/
def bytesPerMegabyte : ℚ := 1000000

/-- `calculateMetricAverages` from `part_002`. `startTimeValues.at(-1)` is the
last element of the (non-empty) list, embedded via `getLast?`; `Date.now()` is
the `now` parameter. -/
def calculateMetricAverages (now : ℚ) (rows : List MetricsExplorerRow) : MetricAverages :=
  let collected := collectMetricValues rows
  { uptime :=
      match collected.startTimeValues.getLast? with
      | some startTime => some (now - startTime)
      | none => none,
    averageCpuUsagePercent :=
      if collected.averageCpuUsagePercentValues.length ≠ 0 then
        some (scaleUpPercentage (averageOfValues collected.averageCpuUsagePercentValues))
      else
        none,
    averageMemoryUsageMegabytes :=
      if collected.averageMemoryUsageMegabytesValues.length ≠ 0 then
        some ((Int.floor (averageOfValues collected.averageMemoryUsageMegabytesValues /
          bytesPerMegabyte) : ℤ) : ℚ)
      else
        none }

/-- `rowWithoutMetrics` from `part_002`. -/
def rowWithoutMetrics (id name : Option String) : PodNodeMetricsRow :=
  { id := id, name := name, uptime := none, averageCpuUsagePercent := none,
    averageMemoryUsageMegabytes := none }

/-- `seriesToPodNodeMetricsRow` from `part_002`:
`const [id, name] = series.keys ?? []` then either the all-null row (no rows)
or the computed metric averages. -/
def seriesToPodNodeMetricsRow (now : ℚ) (series : MetricsExplorerSeries) : PodNodeMetricsRow :=
  let keys := series.keys.getD []
  let id := keys.get? 0
  let name := keys.get? 1
  if series.rows.length = 0 then
    rowWithoutMetrics id name
  else
    let averages := calculateMetricAverages now series.rows
    { id := id, name := name, uptime := averages.uptime,
      averageCpuUsagePercent := averages.averageCpuUsagePercent,
      averageMemoryUsageMegabytes := averages.averageMemoryUsageMegabytes }

/-- Sort key of the table: per the spec the "sort key is one of the DisplayRow
fields". `SortState<PodNodeMetricsRow>` is declared in the shared module. -/
inductive SortField where
  | id
  | name
  | uptime
  | averageCpuUsagePercent
  | averageMemoryUsageMegabytes
deriving DecidableEq

/-- Sort direction of the shared `SortState`. -/
inductive SortDirection where
  | asc
  | desc
deriving DecidableEq

/-- Modelled from the spec: `SortState` is declared in the shared module outside
`src/`; per the spec the hook "exposes setters for page index and sort
field/direction", so sort state is a field together with a direction. -/
structure SortState where
  field : SortField
  direction : SortDirection
deriving DecidableEq

/-- Time range handed to `usePodMetricsTable`; the hook only passes it through,
so only its identity matters here. -/
structure Timerange where
  fromMs : ℚ
  toMs : ℚ
deriving DecidableEq

/-- The two pieces of React `useState` state held by `usePodMetricsTable`. -/
structure HookState where
  currentPageIndex : ℕ
  sortState : SortState
deriving DecidableEq

/-- The `useState` initial values of `usePodMetricsTable` in `part_002`:
page index 0 and sort `{field: 'averageCpuUsagePercent', direction: 'desc'}`. -/
def initialHookState : HookState :=
  { currentPageIndex := 0,
    sortState :=
      { field := SortField.averageCpuUsagePercent, direction := SortDirection.desc } }

/-- Outcome of the asynchronous metrics query issued by the shared fetch hook:
still pending, resolved with a list of series, or failed. -/
inductive QueryOutcome where
  | pending
  | success (series : List MetricsExplorerSeries)
  | failure

/-- The `{data, isLoading}` pair destructured from the shared hook. -/
structure InfrastructureNodeMetricsResult where
  data : List PodNodeMetricsRow
  isLoading : Bool
deriving DecidableEq

/-- Modelled from the spec: `useInfrastructureNodeMetrics` lives in the shared
module outside `src/`. Per the spec it applies the transform to each returned
series; "failure surfaces as `isLoading=false` with empty rows — no retry",
with "no distinct error object at this layer", and while the fetch is in flight
`isLoading` is true. Sorting and pagination of the transformed rows are
delegated collaborator behaviour the spec deliberately does not re-specify
("nulls sort as the collaborator defines — not re-specified here"), so the
model keeps the transformed rows in order. -/
def useInfrastructureNodeMetrics (transform : MetricsExplorerSeries → PodNodeMetricsRow)
    (outcome : QueryOutcome) : InfrastructureNodeMetricsResult :=
  match outcome with
  | QueryOutcome.pending => { data := [], isLoading := true }
  | QueryOutcome.success series => { data := series.map transform, isLoading := false }
  | QueryOutcome.failure => { data := [], isLoading := false }

/-- `UseNodeMetricsTableOptions` destructured by `usePodMetricsTable`:
a time range and a filter clause DSL (opaque here, only threaded to the query). -/
structure UseNodeMetricsTableOptions where
  timerange : Timerange
  filterClauseDsl : Option String

/-- The record returned by `usePodMetricsTable` in `part_002`, lines 82-91:
exactly `{currentPageIndex, data, isLoading, setCurrentPageIndex, setSortState,
sortState, timerange}`, nothing else (in particular no error field). The React
setters are embedded as functions producing the next hook state. -/
structure UsePodMetricsTableResult where
  currentPageIndex : ℕ
  data : List PodNodeMetricsRow
  isLoading : Bool
  setCurrentPageIndex : ℕ → HookState
  setSortState : SortState → HookState
  sortState : SortState
  timerange : Timerange

/-- `usePodMetricsTable` from `part_002`, as a function of its props, the
current hook state (a first render uses `initialHookState`), the wall clock and
the outcome of the query issued through the shared fetch hook. The
`metricsToApiOptions` plumbing only shapes the request to the external query
service, which is absorbed into `QueryOutcome` here. -/
def usePodMetricsTable (now : ℚ) (options : UseNodeMetricsTableOptions)
    (state : HookState) (outcome : QueryOutcome) : UsePodMetricsTableResult :=
  let fetched := useInfrastructureNodeMetrics (seriesToPodNodeMetricsRow now) outcome
  { currentPageIndex := state.currentPageIndex,
    data := fetched.data,
    isLoading := fetched.isLoading,
    setCurrentPageIndex := fun n => { state with currentPageIndex := n },
    setSortState := fun s => { state with sortState := s },
    sortState := state.sortState,
    timerange := options.timerange }

/-! Helper lemmas: closed-form projections of `seriesToPodNodeMetricsRow`. -/

/-- The uptime of a transformed series is `now` minus the last collected
start-time value, `none` when no start-time values were collected. -/
theorem uptime_eq (now : ℚ) (series : MetricsExplorerSeries) :
    (seriesToPodNodeMetricsRow now series).uptime =
      ((collectMetricValues series.rows).startTimeValues.getLast?).map
        (fun v => now - v) := by
  unfold seriesToPodNodeMetricsRow
  by_cases h : series.rows.length = 0
  · have hnil : series.rows = [] := List.length_eq_zero.mp h
    simp [h, rowWithoutMetrics, collectMetricValues, hnil]
  · simp only [h, if_false, calculateMetricAverages]
    cases hg : (collectMetricValues series.rows).startTimeValues.getLast? <;>
      simp [hg]

/-- The average CPU field of a transformed series is the mean of the collected
CPU values times 100, `none` when no CPU values were collected. -/
theorem averageCpu_eq (now : ℚ) (series : MetricsExplorerSeries) :
    (seriesToPodNodeMetricsRow now series).averageCpuUsagePercent =
      if (collectMetricValues series.rows).averageCpuUsagePercentValues = [] then
        none
      else
        some (scaleUpPercentage
          (averageOfValues
            (collectMetricValues series.rows).averageCpuUsagePercentValues)) := by
  unfold seriesToPodNodeMetricsRow
  by_cases h : series.rows.length = 0
  · have hnil : series.rows = [] := List.length_eq_zero.mp h
    simp [h, rowWithoutMetrics, collectMetricValues, hnil]
  · simp only [h, if_false, calculateMetricAverages]
    by_cases hc : (collectMetricValues series.rows).averageCpuUsagePercentValues = [] <;>
      simp [hc, List.length_eq_zero]

/-- The average memory field of a transformed series is the floor of the mean of
the collected byte values divided by 1,000,000, `none` when none collected. -/
theorem averageMemory_eq (now : ℚ) (series : MetricsExplorerSeries) :
    (seriesToPodNodeMetricsRow now series).averageMemoryUsageMegabytes =
      if (collectMetricValues series.rows).averageMemoryUsageMegabytesValues = [] then
        none
      else
        some ((Int.floor (averageOfValues
            (collectMetricValues series.rows).averageMemoryUsageMegabytesValues /
          bytesPerMegabyte) : ℤ) : ℚ) := by
  unfold seriesToPodNodeMetricsRow
  by_cases h : series.rows.length = 0
  · have hnil : series.rows = [] := List.length_eq_zero.mp h
    simp [h, rowWithoutMetrics, collectMetricValues, hnil]
  · simp only [h, if_false, calculateMetricAverages]
    by_cases hc :
        (collectMetricValues series.rows).averageMemoryUsageMegabytesValues = [] <;>
      simp [hc, List.length_eq_zero]

/-! Concrete example inputs used by the testable-property instances. -/

/-- A row reporting only a start-time value. -/
def startTimeRow (t v : ℚ) : MetricsExplorerRow :=
  { timestamp := t,
    metrics := fun f =>
      match f with
      | PodMetricsField.startTime => some v
      | _ => none }

/-- A row reporting only a CPU-limit-ratio value. -/
def cpuRow (t v : ℚ) : MetricsExplorerRow :=
  { timestamp := t,
    metrics := fun f =>
      match f with
      | PodMetricsField.cpuUsageLimitPct => some v
      | _ => none }

/-- A row reporting only a memory byte value. -/
def memoryRow (t v : ℚ) : MetricsExplorerRow :=
  { timestamp := t,
    metrics := fun f =>
      match f with
      | PodMetricsField.memoryUsageBytes => some v
      | _ => none }

/-- A series whose rows carry the start-time values `[100, 500]`. -/
def exampleStartTimeSeries : MetricsExplorerSeries :=
  { id := "s-start", keys := some ["uid-a", "pod-a"], columns := [],
    rows := [startTimeRow 1 100, startTimeRow 2 500] }

/-- A series whose rows carry the CPU values `[0.1, 0.3]`. -/
def exampleCpuSeries : MetricsExplorerSeries :=
  { id := "s-cpu", keys := some ["uid-b", "pod-b"], columns := [],
    rows := [cpuRow 1 (1 / 10), cpuRow 2 (3 / 10)] }

/-- A series whose rows carry the memory byte values `[2000000, 4000000]`. -/
def exampleMemorySeries : MetricsExplorerSeries :=
  { id := "s-mem", keys := some ["uid-c", "pod-c"], columns := [],
    rows := [memoryRow 1 2000000, memoryRow 2 4000000] }

/-- A series with a key tuple but no rows at all. -/
def exampleEmptySeries : MetricsExplorerSeries :=
  { id := "s-empty", keys := some ["uid-d", "pod-d"], columns := [], rows := [] }

/-! The claims. -/

/-- C1: For every series whose rows list is empty, `seriesToPodNodeMetricsRow`
returns a DisplayRow whose uptime, averageCpuUsagePercent and
averageMemoryUsageMegabytes are all null and whose id and name equal the first
and second element of the series' key tuple; the transform is a total function,
so no error is raised. -/
theorem C1_emptyRows_allNull (now : ℚ) (series : MetricsExplorerSeries)
    (h : series.rows = []) :
    seriesToPodNodeMetricsRow now series =
      { id := (series.keys.getD []).get? 0,
        name := (series.keys.getD []).get? 1,
        uptime := none,
        averageCpuUsagePercent := none,
        averageMemoryUsageMegabytes := none } := by
  simp [seriesToPodNodeMetricsRow, rowWithoutMetrics, h]

/-- Witness for C1 at a concrete series with keys and no rows. -/
theorem C1_emptyRows_allNull_witness :
    exampleEmptySeries.rows = [] ∧
    seriesToPodNodeMetricsRow 0 exampleEmptySeries =
      { id := some "uid-d", name := some "pod-d", uptime := none,
        averageCpuUsagePercent := none, averageMemoryUsageMegabytes := none } := by
  refine ⟨rfl, ?_⟩
  rw [C1_emptyRows_allNull 0 exampleEmptySeries rfl]
  rfl

/-- C2: uptime equals the current time minus the LAST collected start-time
value in row order (not the first or the maximum), and is null exactly when no
start-time values exist; in particular for collected start-time values
`[100, 500]` and current time `T`, uptime is `T - 500`. -/
theorem C2_uptime_lastStartTime :
    (∀ (now : ℚ) (series : MetricsExplorerSeries),
      (seriesToPodNodeMetricsRow now series).uptime =
        ((collectMetricValues series.rows).startTimeValues.getLast?).map
          (fun v => now - v)) ∧
    (collectMetricValues exampleStartTimeSeries.rows).startTimeValues = [100, 500] ∧
    (∀ T : ℚ,
      (seriesToPodNodeMetricsRow T exampleStartTimeSeries).uptime = some (T - 500)) := by
  refine ⟨uptime_eq, by decide, ?_⟩
  intro T
  rw [uptime_eq]
  rfl

/-- C3: averageCpuUsagePercent equals the arithmetic mean of the collected CPU
values times 100, and is null exactly when no CPU values exist; in particular
for CPU values `[0.1, 0.3]` it is 20. -/
theorem C3_averageCpu_meanTimes100 :
    (∀ (now : ℚ) (series : MetricsExplorerSeries),
      (seriesToPodNodeMetricsRow now series).averageCpuUsagePercent =
        if (collectMetricValues series.rows).averageCpuUsagePercentValues = [] then
          none
        else
          some ((collectMetricValues series.rows).averageCpuUsagePercentValues.sum /
            (collectMetricValues series.rows).averageCpuUsagePercentValues.length *
            100)) ∧
    (collectMetricValues exampleCpuSeries.rows).averageCpuUsagePercentValues =
      [1 / 10, 3 / 10] ∧
    (∀ now : ℚ,
      (seriesToPodNodeMetricsRow now exampleCpuSeries).averageCpuUsagePercent =
        some 20) := by
  have hvals :
      (collectMetricValues exampleCpuSeries.rows).averageCpuUsagePercentValues =
        [1 / 10, 3 / 10] := by
    simp [collectMetricValues, unpackMetrics, unpackMetric, exampleCpuSeries, cpuRow,
      List.filterMap_cons, List.filterMap_nil]
  refine ⟨?_, hvals, ?_⟩
  · intro now series
    rw [averageCpu_eq]
    simp only [scaleUpPercentage, averageOfValues]
  · intro now
    rw [averageCpu_eq, hvals]
    norm_num [scaleUpPercentage, averageOfValues]
    intro h
    exact absurd h (List.cons_ne_nil _ _)

/-- C4: averageMemoryUsageMegabytes equals the floor of the arithmetic mean of
the collected byte values divided by 1,000,000, and is null exactly when no
memory values exist; in particular for byte values `[2000000, 4000000]` it
is 3. -/
theorem C4_averageMemory_flooredMegabytes :
    (∀ (now : ℚ) (series : MetricsExplorerSeries),
      (seriesToPodNodeMetricsRow now series).averageMemoryUsageMegabytes =
        if (collectMetricValues series.rows).averageMemoryUsageMegabytesValues = [] then
          none
        else
          some ((Int.floor
            ((collectMetricValues series.rows).averageMemoryUsageMegabytesValues.sum /
              (collectMetricValues series.rows).averageMemoryUsageMegabytesValues.length /
              1000000) : ℤ) : ℚ)) ∧
    (collectMetricValues exampleMemorySeries.rows).averageMemoryUsageMegabytesValues =
      [2000000, 4000000] ∧
    (∀ now : ℚ,
      (seriesToPodNodeMetricsRow now exampleMemorySeries).averageMemoryUsageMegabytes =
        some 3) := by
  have hvals :
      (collectMetricValues exampleMemorySeries.rows).averageMemoryUsageMegabytesValues =
        [2000000, 4000000] := by
    simp [collectMetricValues, unpackMetrics, unpackMetric, exampleMemorySeries,
      memoryRow, List.filterMap_cons, List.filterMap_nil]
  refine ⟨?_, hvals, ?_⟩
  · intro now series
    rw [averageMemory_eq]
    simp only [averageOfValues, bytesPerMegabyte]
  · intro now
    rw [averageMemory_eq, hvals]
    have hmean : averageOfValues [(2000000 : ℚ), 4000000] / bytesPerMegabyte = 3 := by
      norm_num [averageOfValues, bytesPerMegabyte]
    rw [hmean]
    norm_num
    intro h
    exact absurd h (List.cons_ne_nil _ _)

/-- C5: the transform reads nothing of a series beyond its keys and rows, so
recomputing the DisplayRow from an unchanged series (same keys, same rows, same
clock reading) yields an identical result. -/
theorem C5_recompute_identical (now : ℚ) (s₁ s₂ : MetricsExplorerSeries)
    (hk : s₁.keys = s₂.keys) (hr : s₁.rows = s₂.rows) :
    seriesToPodNodeMetricsRow now s₁ = seriesToPodNodeMetricsRow now s₂ := by
  unfold seriesToPodNodeMetricsRow
  rw [hk, hr]

/-- Witness for C5: recomputing from a copy of the start-time series that
differs only in upstream bookkeeping fields gives an identical DisplayRow. -/
theorem C5_recompute_identical_witness :
    seriesToPodNodeMetricsRow 1000 exampleStartTimeSeries =
      seriesToPodNodeMetricsRow 1000
        { id := "recomputed", keys := exampleStartTimeSeries.keys,
          columns := ["extra"], rows := exampleStartTimeSeries.rows } :=
  C5_recompute_identical 1000 exampleStartTimeSeries
    { id := "recomputed", keys := exampleStartTimeSeries.keys,
      columns := ["extra"], rows := exampleStartTimeSeries.rows } rfl rfl

/-- C6: each metric field of the DisplayRow is null exactly when that metric
has no non-null value in any of the series' rows, each independently of the
other two; in particular a series whose rows report no values at all yields an
all-null DisplayRow, never an error. -/
theorem C6_null_iff_noValues (now : ℚ) (series : MetricsExplorerSeries) :
    ((seriesToPodNodeMetricsRow now series).uptime = none ↔
      ∀ row ∈ series.rows, (unpackMetrics row).startTime = none) ∧
    ((seriesToPodNodeMetricsRow now series).averageCpuUsagePercent = none ↔
      ∀ row ∈ series.rows, (unpackMetrics row).averageCpuUsagePercent = none) ∧
    ((seriesToPodNodeMetricsRow now series).averageMemoryUsageMegabytes = none ↔
      ∀ row ∈ series.rows, (unpackMetrics row).averageMemoryUsageMegabytes = none) := by
  refine ⟨?_, ?_, ?_⟩
  · rw [uptime_eq, Option.map_eq_none', List.getLast?_eq_none_iff,
      collectMetricValues]
    exact List.filterMap_eq_nil_iff
  · rw [averageCpu_eq]
    by_cases hc : (collectMetricValues series.rows).averageCpuUsagePercentValues = []
    · simp only [hc, if_true, true_iff, eq_self_iff_true]
      rw [collectMetricValues] at hc
      exact List.filterMap_eq_nil_iff.mp hc
    · simp only [hc, if_false]
      rw [collectMetricValues] at hc
      simp only [false_iff, reduceCtorEq]
      intro hall
      exact hc (List.filterMap_eq_nil_iff.mpr hall)
  · rw [averageMemory_eq]
    by_cases hc :
        (collectMetricValues series.rows).averageMemoryUsageMegabytesValues = []
    · simp only [hc, if_true, true_iff, eq_self_iff_true]
      rw [collectMetricValues] at hc
      exact List.filterMap_eq_nil_iff.mp hc
    · simp only [hc, if_false]
      rw [collectMetricValues] at hc
      simp only [false_iff, reduceCtorEq]
      intro hall
      exact hc (List.filterMap_eq_nil_iff.mpr hall)

/-- C7: when the metrics query fails, `usePodMetricsTable` surfaces the failure
only through the loading flag and empty data: `data` is empty and `isLoading`
is false, and the result record (`UsePodMetricsTableResult`) carries no error
field of any kind, so no distinct error object or error type reaches the
caller. -/
theorem C7_queryFailure_absorbed (now : ℚ) (options : UseNodeMetricsTableOptions)
    (state : HookState) :
    (usePodMetricsTable now options state QueryOutcome.failure).data = [] ∧
    (usePodMetricsTable now options state QueryOutcome.failure).isLoading = false := by
  exact ⟨rfl, rfl⟩

/-- C8: for every input, the hook returns the record with exactly the fields
`currentPageIndex`, `data`, `isLoading`, `setCurrentPageIndex`, `setSortState`,
`sortState`, `timerange` (the structure eta law below lists them all), and the
returned `timerange` is the input timerange unchanged. -/
theorem C8_result_shape (now : ℚ) (options : UseNodeMetricsTableOptions)
    (state : HookState) (outcome : QueryOutcome) :
    (usePodMetricsTable now options state outcome).timerange = options.timerange ∧
    usePodMetricsTable now options state outcome =
      { currentPageIndex := (usePodMetricsTable now options state outcome).currentPageIndex,
        data := (usePodMetricsTable now options state outcome).data,
        isLoading := (usePodMetricsTable now options state outcome).isLoading,
        setCurrentPageIndex :=
          (usePodMetricsTable now options state outcome).setCurrentPageIndex,
        setSortState := (usePodMetricsTable now options state outcome).setSortState,
        sortState := (usePodMetricsTable now options state outcome).sortState,
        timerange := options.timerange } := by
  exact ⟨rfl, rfl⟩

/-- C9: on the first invocation, before any setter has been called (i.e. at the
`useState` initial state), `currentPageIndex` is 0 and `sortState` is
`{field: averageCpuUsagePercent, direction: desc}`. -/
theorem C9_initial_state (now : ℚ) (options : UseNodeMetricsTableOptions)
    (outcome : QueryOutcome) :
    (usePodMetricsTable now options initialHookState outcome).currentPageIndex = 0 ∧
    (usePodMetricsTable now options initialHookState outcome).sortState =
      { field := SortField.averageCpuUsagePercent,
        direction := SortDirection.desc } := by
  exact ⟨rfl, rfl⟩

/-- C10: `seriesToPodNodeMetricsRow` is a total function of the series (so it
never raises), and its `id`/`name` are the first/second element of
`series.keys ?? []`: when `keys` is absent or shorter than two elements, the
missing components are `none` (JS `undefined`), since `get?` past the end of
the defaulted list is `none`. -/
theorem C10_missing_keys_total (now : ℚ) (series : MetricsExplorerSeries) :
    (seriesToPodNodeMetricsRow now series).id = (series.keys.getD []).get? 0 ∧
    (seriesToPodNodeMetricsRow now series).name = (series.keys.getD []).get? 1 := by
  unfold seriesToPodNodeMetricsRow
  by_cases h : series.rows.length = 0 <;> simp [h, rowWithoutMetrics]

end PodMetrics
